import Mathlib

/-!
Verification of the Circle ML matching service (`python-services/ml-matching/app.py`).

The Python functions `parse_prompt_requirements`, `expand_prompt_keywords`,
`calculate_keyword_match`, `calculate_list_similarity`, `calculate_text_similarity`,
`compute_criteria_coverage`, `calculate_match_score` and the candidate-processing
part of `find_matches` are embedded as executable Lean definitions.  Floats are
modelled by `ℚ` (all constants in the code are decimal literals, so the arithmetic
is exact), Python `None` by `Option`, and Python truthiness by explicit helpers.
Statements that Python raises on (KeyError from a missing weight key,
TypeError/ZeroDivisionError in the distance computation) are modelled by an
`Option` result where `none` means "raises".  The haversine distance function is
kept abstract as a parameter `dist` (its trigonometry is irrelevant to every
claim; only the guards around it matter).
-/

attribute [local semireducible] Rat.add Rat.mul Rat.inv Rat.sub

/-! ### Python string primitives -/

/-- Python `s.lower()` (ASCII, which is all the fixed tables use). -/
def pyLower (s : String) : String := String.mk (s.data.map Char.toLower)

/-- Substring test on char lists: `needle` occurs contiguously in `hay`. -/
def pyInL (needle : List Char) : List Char → Bool
  | [] => needle.isEmpty
  | h :: t => needle.isPrefixOf (h :: t) || pyInL needle t

/-- Python `needle in hay` for strings (substring containment). -/
def pyIn (needle hay : String) : Bool := pyInL needle.data hay.data

/-- Maximal runs of characters satisfying `p` (run accumulator is reversed). -/
def runsAux (p : Char → Bool) : List Char → List Char → List (List Char)
  | [], acc => if acc.isEmpty then [] else [acc.reverse]
  | c :: t, acc =>
    if p c then runsAux p t (c :: acc)
    else if acc.isEmpty then runsAux p t [] else acc.reverse :: runsAux p t []

def charRuns (p : Char → Bool) (l : List Char) : List (List Char) := runsAux p l []

/-- Python `s.split()`: split on whitespace, dropping empty pieces. -/
def pySplitWs (s : String) : List String :=
  (charRuns (fun c => !c.isWhitespace) s.data).map String.mk

/-- A regex `\w` character: letters, digits and underscore. -/
def isWordChar (c : Char) : Bool := c.isAlphanum || c = '_'

/-- Python `re.findall(r'\b\w+\b', s)`: the maximal word-character runs of `s`. -/
def pyWords (s : String) : List String :=
  (charRuns isWordChar s.data).map String.mk

/-- Python `word.strip('.,!?;:')`. -/
def pyStrip (s : String) : String :=
  let punct : List Char := ['.', ',', '!', '?', ';', ':']
  String.mk (((s.data.dropWhile (fun c => punct.contains c)).reverse.dropWhile
      (fun c => punct.contains c)).reverse)

/-- Python `s.strip()` (whitespace on both ends). -/
def pyTrim (s : String) : String :=
  String.mk (((s.data.dropWhile Char.isWhitespace).reverse.dropWhile
      Char.isWhitespace).reverse)

/-- Python `s.isdigit()` for ASCII strings. -/
def pyIsDigit (s : String) : Bool := !s.data.isEmpty && s.data.all Char.isDigit

/-- Python `list(dict.fromkeys(l))`: deduplicate keeping first occurrences. -/
def pyDedupAux : List String → List String → List String
  | _, [] => []
  | seen, x :: xs =>
    if seen.contains x then pyDedupAux seen xs else x :: pyDedupAux (x :: seen) xs

def pyDedup (l : List String) : List String := pyDedupAux [] l

/-- Python `' '.join(l)`. -/
def joinSpace : List String → String
  | [] => ""
  | [x] => x
  | x :: y :: t => x ++ " " ++ joinSpace (y :: t)

/-! ### Truthiness of optional values, as Python sees them -/

def optListTruthy {α : Type} : Option (List α) → Bool
  | some (_ :: _) => true
  | _ => false

def optStrTruthy : Option String → Bool
  | some s => decide (s ≠ "")
  | none => false

def optNumTruthy : Option ℚ → Bool
  | some x => decide (x ≠ 0)
  | none => false

def optIntTruthy : Option Int → Bool
  | some n => decide (n ≠ 0)
  | none => false

/-! ### Scanners for the age regular expressions

Each of the age patterns in `parse_prompt_requirements` is of the simple shape
`literal  whitespace+  digits+` (possibly twice).  `re.search` semantics for these
patterns is: leftmost starting position wins, and the greedy `\s+`/`\d+` runs are
maximal (backtracking can never rescue a failed continuation because the
character classes of adjacent pieces are disjoint). -/

/-- Value of a digit run. -/
def digitsVal (l : List Char) : Nat :=
  l.foldl (fun n c => n * 10 + (c.toNat - 48)) 0

/-- Try pattern `kw \s+ (\d+)` anchored at the start of `l`. -/
def matchKwNumAt (kw : List Char) (l : List Char) : Option Nat :=
  if kw.isPrefixOf l then
    let r1 := l.drop kw.length
    if (r1.takeWhile Char.isWhitespace).isEmpty then none
    else
      let r2 := r1.dropWhile Char.isWhitespace
      let ds := r2.takeWhile Char.isDigit
      if ds.isEmpty then none else some (digitsVal ds)
  else none

/-- Try pattern `(\d+) \s+ years? \s+ old` anchored at the start of `l`. -/
def matchNumYearsOldAt (l : List Char) : Option Nat :=
  let ds := l.takeWhile Char.isDigit
  if ds.isEmpty then none
  else
    let r1 := l.dropWhile Char.isDigit
    if (r1.takeWhile Char.isWhitespace).isEmpty then none
    else
      let r2 := r1.dropWhile Char.isWhitespace
      if ("year").data.isPrefixOf r2 then
        let r3 := r2.drop 4
        let r4 := if ("s").data.isPrefixOf r3 then r3.drop 1 else r3
        if (r4.takeWhile Char.isWhitespace).isEmpty then none
        else if ("old").data.isPrefixOf (r4.dropWhile Char.isWhitespace) then
          some (digitsVal ds)
        else none
      else none

/-- Try pattern `between \s+ (\d+) \s+ and \s+ (\d+)` anchored at the start of `l`. -/
def matchBetweenAt (l : List Char) : Option (Nat × Nat) :=
  if ("between").data.isPrefixOf l then
    let r1 := l.drop 7
    if (r1.takeWhile Char.isWhitespace).isEmpty then none
    else
      let r2 := r1.dropWhile Char.isWhitespace
      let d1 := r2.takeWhile Char.isDigit
      if d1.isEmpty then none
      else
        let r3 := r2.dropWhile Char.isDigit
        if (r3.takeWhile Char.isWhitespace).isEmpty then none
        else
          let r4 := r3.dropWhile Char.isWhitespace
          if ("and").data.isPrefixOf r4 then
            let r5 := r4.drop 3
            if (r5.takeWhile Char.isWhitespace).isEmpty then none
            else
              let r6 := r5.dropWhile Char.isWhitespace
              let d2 := r6.takeWhile Char.isDigit
              if d2.isEmpty then none else some (digitsVal d1, digitsVal d2)
          else none
  else none

/-- `re.search`: try the anchored matcher at every position, leftmost wins. -/
def scan {α : Type} (f : List Char → Option α) : List Char → Option α
  | [] => none
  | h :: t =>
    match f (h :: t) with
    | some v => some v
    | none => scan f t

/-- Alternation `(?:a|b|c) \s+ (\d+)`: at each position the alternatives are
tried in order. -/
def scanAltsNum (kws : List (List Char)) (l : List Char) : Option Nat :=
  scan (fun suffix => kws.findSome? (fun kw => matchKwNumAt kw suffix)) l

def scanBetween (l : List Char) : Option (Nat × Nat) := scan matchBetweenAt l

/-! ### The requirement extractor (`parse_prompt_requirements`) -/

def female_terms : List String := ["female", "woman", "girl", "lady", "she", "her"]
def male_terms : List String := ["male", "man", "boy", "guy", "he", "him"]
def lgbtq_terms : List String :=
  ["gay", "lesbian", "queer", "lgbt", "lgbtq", "non-binary", "trans"]

def stop_words : List String :=
  ["find", "me", "a", "an", "the", "who", "can", "help", "in", "with", "at",
   "near", "around", "about", "age", "years", "old", "user", "person", "people",
   "someone", "looking", "for", "want", "need", "would", "could", "should",
   "and", "or", "but", "is", "are", "was", "were", "be", "been", "being",
   "have", "has", "had", "do", "does", "did", "will", "would", "shall",
   "may", "might", "must", "can", "could", "to", "from", "of", "on", "by"]

def tech_skills : List String :=
  ["coding", "programming", "developer", "software", "tech", "computer",
   "web", "app", "python", "java", "javascript", "data", "ai", "ml"]
def creative_skills : List String :=
  ["art", "design", "music", "photography", "writing", "creative",
   "painting", "drawing", "singing", "dancing"]
def sports_fitness : List String :=
  ["gym", "fitness", "sports", "running", "yoga", "workout",
   "exercise", "athletic", "swimming", "cycling"]
def outdoor_activities : List String :=
  ["hiking", "trekking", "camping", "adventure", "travel",
   "nature", "outdoor", "mountain", "beach"]

def nearby_terms : List String := ["nearby", "near me", "close", "local", "same city", "near"]

def casual_terms : List String :=
  ["hookup", "casual", "no strings", "fling", "one night", "fun", "no serious"]
def serious_terms : List String :=
  ["serious", "relationship", "long term", "committed", "partner", "dating"]
def friendship_terms : List String :=
  ["friend", "friendship", "buddy", "pal", "hang out", "chill"]
def professional_terms : List String :=
  ["mentor", "professional", "career", "business", "networking", "work"]

def emotional_terms : List String :=
  ["emotion", "emotional", "support", "listen", "understand", "empathy", "comfort"]
def education_terms : List String :=
  ["learn", "teach", "education", "study", "tutor", "help me in", "guide"]
def career_terms : List String :=
  ["career", "job", "professional", "work", "business", "advice"]
def health_terms : List String :=
  ["health", "fitness", "wellness", "mental health", "therapy", "workout"]

def strong_intent_terms : List String :=
  ["only", "specifically", "must", "need", "require", "looking for"]

/-- The `requirements` dict built by `parse_prompt_requirements`.  An `Option`
field (or an empty list / `false` flag) models an absent key: the parser only
ever inserts keys with truthy values, so key presence and field presence
coincide for parser-produced values. -/
structure Requirements where
  lgbtq_friendly : Bool := false
  lgbtq_specific : Bool := false
  gender : Option String := none
  age_range : Option (Int × Int) := none
  categories : List String := []
  keywords : Option (List String) := none
  prefer_nearby : Bool := false
  relationship_type : Option String := none
  intent_weight : Option String := none
  purposes : Option (List String) := none
  purpose_focused : Bool := false
  strong_intent : Bool := false
  deriving DecidableEq

/-- Python truthiness of the requirements dict: at least one key present. -/
def Requirements.truthy (r : Requirements) : Bool :=
  r.lgbtq_friendly || r.lgbtq_specific || r.gender.isSome || r.age_range.isSome ||
  !r.categories.isEmpty || r.keywords.isSome || r.prefer_nearby ||
  r.relationship_type.isSome || r.intent_weight.isSome || r.purposes.isSome ||
  r.purpose_focused || r.strong_intent

def optTruthyR : Option Requirements → Bool
  | some r => r.truthy
  | none => false

/-- Gender detection: female terms checked before male terms, each by substring
containment in the lower-cased prompt. -/
def genderOf (pl : String) : Option String :=
  if female_terms.any (fun t => pyIn t pl) then some ("female")
  else if male_terms.any (fun t => pyIn t pl) then some ("male")
  else none

/-- Single-value age patterns, tried in source order, first match wins;
the result is the tolerance range clamped to `[18, 100]`. -/
def clampRange (a tol : Nat) : Int × Int :=
  (max 18 ((a : Int) - (tol : Int)), min 100 ((a : Int) + (tol : Int)))

def agePatternsResult (pl : List Char) : Option (Int × Int) :=
  ((scan (matchKwNumAt ("age").data) pl).map (fun a => clampRange a 3)) <|>
  ((scan matchNumYearsOldAt pl).map (fun a => clampRange a 3)) <|>
  ((scan (matchKwNumAt ("around").data) pl).map (fun a => clampRange a 4)) <|>
  ((scan (matchKwNumAt ("near").data) pl).map (fun a => clampRange a 3)) <|>
  ((scan (matchKwNumAt ("about").data) pl).map (fun a => clampRange a 4)) <|>
  ((scan (matchKwNumAt ("exactly").data) pl).map (fun a => clampRange a 1))

/-- Pattern 3: independent lower/upper bound phrases, with defaults 18 / 100. -/
def minMaxResult (pl : List Char) : Option (Int × Int) :=
  let mn := scanAltsNum [("above").data, ("over").data, ("older than").data] pl
  let mx := scanAltsNum [("under").data, ("below").data, ("younger than").data] pl
  if mn.isSome || mx.isSome then
    some (((mn.getD 18 : Nat) : Int), ((mx.getD 100 : Nat) : Int))
  else none

/-- The age section of the parser.  Pattern 1 (single values, tolerance) writes
first; pattern 2 (`between N and M`) is evaluated unconditionally and
overwrites; pattern 3 (bounds) runs only if the key is still absent. -/
def ageRangeOf (pl : List Char) : Option (Int × Int) :=
  let r1 := agePatternsResult pl
  let r2 :=
    match scanBetween pl with
    | some (a, b) => some (((a : Nat) : Int), ((b : Nat) : Int))
    | none => r1
  match r2 with
  | some r => some r
  | none => minMaxResult pl

/-- Keyword extraction: words of the prompt, stripped of trailing punctuation,
dropping stop words, tokens of length ≤ 2 and pure digit tokens; deduplicated
preserving order.  The key is only set when the list is non-empty. -/
def keywordsOf (pl : String) : Option (List String) :=
  let kwList := ((pyWords pl).map pyStrip).filter
    (fun w => !(stop_words.contains w) && decide (2 < w.length) && !(pyIsDigit w))
  if kwList.isEmpty then none else some (pyDedup kwList)

def categoriesOf (pl : String) : List String :=
  (if tech_skills.any (fun s => pyIn s pl) then [("technology" : String)] else []) ++
  (if creative_skills.any (fun s => pyIn s pl) then [("creative" : String)] else []) ++
  (if sports_fitness.any (fun s => pyIn s pl) then [("fitness" : String)] else []) ++
  (if outdoor_activities.any (fun s => pyIn s pl) then [("outdoor" : String)] else [])

def relationshipOf (pl : String) : Option String :=
  if casual_terms.any (fun t => pyIn t pl) then some ("casual")
  else if serious_terms.any (fun t => pyIn t pl) then some ("serious")
  else if friendship_terms.any (fun t => pyIn t pl) then some ("friendship")
  else if professional_terms.any (fun t => pyIn t pl) then some ("professional")
  else none

def purposeListOf (pl : String) : List String :=
  (if emotional_terms.any (fun t => pyIn t pl) then [("emotional_support" : String)] else []) ++
  (if education_terms.any (fun t => pyIn t pl) then [("education" : String)] else []) ++
  (if career_terms.any (fun t => pyIn t pl) then [("career" : String)] else []) ++
  (if health_terms.any (fun t => pyIn t pl) then [("health" : String)] else [])

/-- `parse_prompt_requirements` from `app.py`. -/
def parse_prompt_requirements (prompt : String) : Requirements :=
  if prompt = "" then {}
  else
    let pl := pyLower prompt
    { lgbtq_friendly := lgbtq_terms.any (fun t => pyIn t pl),
      lgbtq_specific :=
        lgbtq_terms.any (fun t => pyIn t pl) && (pyIn ("gay") pl || pyIn ("lesbian") pl),
      gender := genderOf pl,
      age_range := ageRangeOf pl.data,
      categories := categoriesOf pl,
      keywords := keywordsOf pl,
      prefer_nearby := nearby_terms.any (fun t => pyIn t pl),
      relationship_type := relationshipOf pl,
      intent_weight :=
        if relationshipOf pl = some ("casual") || relationshipOf pl = some ("serious") then
          some ("high")
        else none,
      purposes := if (purposeListOf pl).isEmpty then none else some (purposeListOf pl),
      purpose_focused := !(purposeListOf pl).isEmpty,
      strong_intent := strong_intent_terms.any (fun t => pyIn t pl) }

/-! ### Profiles and the keyword expander -/

/-- A user profile as the scoring code consumes it (dict from the DB layer). -/
structure Profile where
  id : String := ""
  name : String := ""
  age : Option Int := none
  bio : Option String := none
  interests : Option (List String) := none
  needs : Option (List String) := none
  latitude : Option ℚ := none
  longitude : Option ℚ := none
  gender : Option String := none
  deriving DecidableEq

/-- The fixed purpose → concrete-term expansion table of `expand_prompt_keywords`. -/
def purpose_terms (p : String) : List String :=
  if p = "emotional_support" then
    ["emotional", "support", "listener", "listening", "empathy", "understanding",
     "caring", "comfort", "therapy", "mental", "talk"]
  else if p = "education" then
    ["learn", "teaching", "teach", "tutor", "mentor", "guide", "study", "education",
     "coding", "programming", "development"]
  else if p = "career" then
    ["career", "job", "work", "professional", "mentor", "mentorship", "advice", "business"]
  else if p = "health" then
    ["health", "fitness", "workout", "gym", "wellness", "mental", "therapy"]
  else []

/-- The fixed relationship-type expansion table of `expand_prompt_keywords`. -/
def rel_terms (rt : String) : List String :=
  if rt = "casual" then ["casual", "hookup", "fun", "fling", "no strings"]
  else if rt = "serious" then
    ["serious", "relationship", "long term", "committed", "partner", "dating"]
  else if rt = "friendship" then ["friend", "friendship", "buddy", "hangout", "chill"]
  else if rt = "professional" then
    ["professional", "career", "mentor", "networking", "business"]
  else []

/-- `expand_prompt_keywords` from `app.py`. -/
def expand_prompt_keywords (r : Requirements) : List String :=
  if !r.truthy then []
  else
    let e := (r.keywords.getD []) ++
      ((r.purposes.getD []).map purpose_terms).flatten ++
      (match r.relationship_type with
       | some rt => rel_terms rt
       | none => [])
    pyDedup (e.filter (fun w => decide (pyTrim w ≠ "")))

/-! ### Similarity toolkit -/

/-- `calculate_text_similarity`: Jaccard similarity of whitespace-tokenized,
lower-cased word sets.  Set cardinalities are computed on deduplicated lists. -/
def calculate_text_similarity (text1 text2 : Option String) : ℚ :=
  match text1, text2 with
  | some t1, some t2 =>
    if t1 = "" || t2 = "" then 0
    else
      let words1 := pyDedup (pySplitWs (pyLower t1))
      let words2 := pyDedup (pySplitWs (pyLower t2))
      if words1.isEmpty || words2.isEmpty then 0
      else
        let inter := (words1.filter (fun w => words2.contains w)).length
        let uni := (pyDedup (words1 ++ words2)).length
        if uni = 0 then 0 else (inter : ℚ) / (uni : ℚ)
  | _, _ => 0

/-- `calculate_list_similarity`: Jaccard similarity of lower-cased item sets. -/
def calculate_list_similarity (list1 list2 : Option (List String)) : ℚ :=
  match list1, list2 with
  | some l1, some l2 =>
    if l1.isEmpty || l2.isEmpty then 0
    else
      let s1 := pyDedup (l1.map pyLower)
      let s2 := pyDedup (l2.map pyLower)
      if s1.isEmpty || s2.isEmpty then 0
      else
        let inter := (s1.filter (fun w => s2.contains w)).length
        let uni := (pyDedup (s1 ++ s2)).length
        if uni = 0 then 0 else (inter : ℚ) / (uni : ℚ)
  | _, _ => 0

/-! ### Keyword matching -/

/-- The fixed synonym table of `calculate_keyword_match`. -/
def synonyms (k : String) : Option (List String) :=
  if k = "coding" then
    some ["programming", "developer", "software", "code", "development", "engineer", "tech"]
  else if k = "programming" then
    some ["coding", "developer", "software", "development", "engineer", "tech"]
  else if k = "teaching" then
    some ["teacher", "mentor", "education", "tutor", "instructor", "guide", "coach"]
  else if k = "learning" then
    some ["study", "education", "student", "knowledge", "training"]
  else if k = "gym" then
    some ["fitness", "workout", "exercise", "bodybuilding", "training", "athletic"]
  else if k = "fitness" then
    some ["gym", "workout", "exercise", "health", "training", "athletic", "wellness"]
  else if k = "health" then
    some ["wellness", "fitness", "healthy", "wellbeing", "medical"]
  else if k = "emotional" then
    some ["emotion", "feelings", "empathy", "support", "understanding", "caring"]
  else if k = "support" then
    some ["help", "assist", "guidance", "advice", "counseling", "listening"]
  else if k = "listening" then
    some ["listener", "understanding", "empathy", "support", "caring"]
  else if k = "casual" then
    some ["hookup", "fun", "fling", "no strings", "relaxed"]
  else if k = "serious" then
    some ["committed", "relationship", "long term", "partner", "dating"]
  else if k = "friendship" then
    some ["friend", "buddy", "pal", "companion", "hang out"]
  else if k = "career" then
    some ["professional", "job", "work", "business", "employment"]
  else if k = "mentor" then
    some ["guide", "advisor", "coach", "teacher", "counselor"]
  else if k = "advice" then
    some ["guidance", "help", "suggestion", "recommendation", "tips"]
  else if k = "music" then
    some ["musical", "musician", "singing", "songs", "melody", "tune", "performer"]
  else if k = "art" then
    some ["artistic", "artist", "creative", "painting", "drawing", "design"]
  else if k = "photography" then
    some ["photo", "photographer", "pictures", "camera", "videography"]
  else if k = "design" then
    some ["designer", "creative", "art", "graphic", "ui", "ux", "artistic"]
  else if k = "travel" then
    some ["traveling", "trip", "vacation", "adventure", "explore", "wanderlust"]
  else if k = "hiking" then
    some ["trekking", "mountain", "outdoor", "nature", "trail", "adventure"]
  else none

/-- The three lower-cased profile texts used by `calculate_keyword_match`. -/
def profileInterestsText (profile : Profile) : String :=
  if optListTruthy profile.interests then joinSpace ((profile.interests.getD []).map pyLower)
  else ""

def profileNeedsText (profile : Profile) : String :=
  if optListTruthy profile.needs then joinSpace ((profile.needs.getD []).map pyLower)
  else ""

def profileBioText (profile : Profile) : String :=
  if optStrTruthy profile.bio then pyLower (profile.bio.getD "") else ""

/-- The per-keyword tier cascade, exactly as the `if/elif` chain in the source:
note that the second branch is entered whenever the keyword is a synonym-table
key, even if no synonym occurs in the interests text, in which case the keyword
scores 0 and the later tiers are never consulted. -/
def tierScore (keyword it nt bt : String) : ℚ :=
  if pyIn keyword it then 1
  else if (synonyms keyword).isSome then
    (if ((synonyms keyword).getD []).any (fun syn => pyIn syn it) then 9/10 else 0)
  else if pyIn keyword nt then 8/10
  else if (synonyms keyword).isSome &&
      ((synonyms keyword).getD []).any (fun syn => pyIn syn nt) then 7/10
  else if pyIn keyword bt then 6/10
  else if (synonyms keyword).isSome &&
      ((synonyms keyword).getD []).any (fun syn => pyIn syn bt) then 1/2
  else if (pySplitWs (it ++ " " ++ nt ++ " " ++ bt)).any (fun w => pyIn keyword w) then 3/10
  else 0

/-- `calculate_keyword_match` from `app.py`.  (Its third Python parameter
`prompt_requirements` is never used in the body and is omitted.) -/
def calculate_keyword_match (keywords : List String) (profile : Profile) : ℚ :=
  if keywords.isEmpty then 0
  else
    let it := profileInterestsText profile
    let nt := profileNeedsText profile
    let bt := profileBioText profile
    if it = "" && nt = "" && bt = "" then 0
    else
      let total := (keywords.map (fun kw => tierScore kw it nt bt)).sum
      min 1 (total / (keywords.length : ℚ))

/-! ### Coverage evaluator (`compute_criteria_coverage`) -/

/-- Gender criterion: (present?, satisfied?) as 0/1 counters. -/
def genderCount (r : Requirements) (candidate : Profile) : Nat × Nat :=
  match r.gender with
  | some gv =>
    if gv ≠ "" then
      let cg := pyLower (pyTrim (candidate.gender.getD ""))
      (1, if cg ≠ "" && cg = gv then 1 else 0)
    else (0, 0)
  | none => (0, 0)

/-- Age-range criterion counters. -/
def ageCount (r : Requirements) (candidate : Profile) : Nat × Nat :=
  match r.age_range with
  | some (lo, hi) =>
    (1, match candidate.age with
        | some a => if lo ≤ a && a ≤ hi then 1 else 0
        | none => 0)
  | none => (0, 0)

/-- Keyword criterion counters: present iff the expanded keyword list is
non-empty, satisfied iff the keyword match reaches 0.60. -/
def keywordCount (r : Requirements) (candidate : Profile) : Nat × Nat :=
  let ek := expand_prompt_keywords r
  if ek.isEmpty then (0, 0)
  else (1, if (6/10 : ℚ) ≤ calculate_keyword_match ek candidate then 1 else 0)

/-- `compute_criteria_coverage` from `app.py`. -/
def compute_criteria_coverage (pr : Option Requirements) (candidate : Profile) : ℚ :=
  match pr with
  | none => 0
  | some r =>
    if !r.truthy then 0
    else
      let total := (genderCount r candidate).1 + (ageCount r candidate).1 +
        (keywordCount r candidate).1
      let satisfied := (genderCount r candidate).2 + (ageCount r candidate).2 +
        (keywordCount r candidate).2
      if total = 0 then 0 else (satisfied : ℚ) / (total : ℚ)

/-! ### The candidate scorer (`calculate_match_score`) -/

/-- The preference object (only `max_distance` is consumed by the scorer; the
other fields are used by the external store query). -/
structure Preferences where
  max_distance : Option Int := some 50
  age_range : Option (Int × Int) := some (18, 100)
  interests : Option (List String) := some []
  needs : Option (List String) := some []
  gender_preference : Option String := none
  deriving DecidableEq

/-- A weight profile.  `prompt_keywords` and `prompt` are `Option` because the
standard profile has no `prompt_keywords` key and the keyword profiles have no
`prompt` key — accessing a missing key raises in Python. -/
structure Weights where
  prompt_keywords : Option ℚ := none
  interests : ℚ := 0
  needs : ℚ := 0
  bio : ℚ := 0
  distance : ℚ := 0
  age : ℚ := 0
  prompt : Option ℚ := none
  deriving DecidableEq

def weightsNearby : Weights :=
  { prompt_keywords := some (50/100), distance := 20/100, interests := 15/100,
    needs := 8/100, bio := 5/100, age := 2/100 }

def weightsKeyword : Weights :=
  { prompt_keywords := some (55/100), interests := 20/100, needs := 10/100,
    age := 8/100, distance := 5/100, bio := 2/100 }

def weightsStandard : Weights :=
  { interests := 30/100, needs := 25/100, bio := 15/100, distance := 15/100,
    age := 10/100, prompt := some (5/100) }

def optKeywordsTruthy : Option Requirements → Bool
  | some r => optListTruthy r.keywords
  | none => false

def optNearby : Option Requirements → Bool
  | some r => r.prefer_nearby
  | none => false

/-- Weight-profile selection at the top of `calculate_match_score`. -/
def selectWeights (pr : Option Requirements) : Weights :=
  if optTruthyR pr && optKeywordsTruthy pr then
    (if optNearby pr then weightsNearby else weightsKeyword)
  else weightsStandard

/-- The prompt-keyword block of the scorer.  When a requirement set is truthy
the code always reads `weights['prompt_keywords']`; `none` models the KeyError
raised when the selected profile lacks that key. -/
def keywordScoreOpt (candidate : Profile) (pr : Option Requirements) (w : Weights) :
    Option ℚ :=
  match pr with
  | none => some 0
  | some r =>
    if r.truthy then
      let ek := expand_prompt_keywords r
      let km := if !ek.isEmpty then calculate_keyword_match ek candidate else 0
      match w.prompt_keywords with
      | none => none
      | some wpk =>
        some (km * wpk * 100 +
          (if (8/10 : ℚ) ≤ km then 15
           else if (6/10 : ℚ) ≤ km then 10
           else if (4/10 : ℚ) ≤ km then 5
           else 0) +
          (if r.strong_intent && (6/10 : ℚ) ≤ km then 10 else 0) +
          (if r.purpose_focused && (5/10 : ℚ) ≤ km then 8 else 0))
    else some 0

def interestsComponent (user candidate : Profile) (w : ℚ) : ℚ :=
  if optListTruthy user.interests && optListTruthy candidate.interests then
    calculate_list_similarity user.interests candidate.interests * w * 100
  else 0

def needsComponent (user candidate : Profile) (w : ℚ) : ℚ :=
  if optListTruthy user.needs && optListTruthy candidate.needs then
    calculate_list_similarity user.needs candidate.needs * w * 100
  else 0

def bioComponent (user candidate : Profile) (w : ℚ) : ℚ :=
  if optStrTruthy user.bio && optStrTruthy candidate.bio then
    calculate_text_similarity user.bio candidate.bio * w * 100
  else 0

/-- The distance block.  `dist` abstracts `calculate_distance` (haversine).
`none` models the TypeError (`max_distance` missing) or ZeroDivisionError
(`max_distance == 0`) Python would raise inside this block. -/
def distanceScoreOpt (dist : ℚ → ℚ → ℚ → ℚ → ℚ) (user candidate : Profile)
    (preferences : Option Preferences) (w : ℚ) : Option ℚ :=
  if optNumTruthy user.latitude && optNumTruthy user.longitude &&
     optNumTruthy candidate.latitude && optNumTruthy candidate.longitude then
    match (match preferences with | some p => p.max_distance | none => some 50) with
    | none => none
    | some m =>
      if m = 0 then none
      else
        some (max 0 (1 - dist (user.latitude.getD 0) (user.longitude.getD 0)
          (candidate.latitude.getD 0) (candidate.longitude.getD 0) / (m : ℚ)) * w * 100)
  else some 0

def ageComponent (user candidate : Profile) (w : ℚ) : ℚ :=
  if optIntTruthy user.age && optIntTruthy candidate.age then
    max 0 (1 - (((user.age.getD 0) - (candidate.age.getD 0)).natAbs : ℚ) / 20) * w * 100
  else 0

def legacyComponent (prompt : Option String) (pr : Option Requirements)
    (candidate : Profile) (w : ℚ) : ℚ :=
  if optStrTruthy prompt && !(optTruthyR pr) && optStrTruthy candidate.bio then
    calculate_text_similarity prompt candidate.bio * w * 100
  else 0

/-- `calculate_match_score` from `app.py`: sum of the contributions, clamped
at 100; `none` when the Python code raises. -/
def calculate_match_score (dist : ℚ → ℚ → ℚ → ℚ → ℚ) (user candidate : Profile)
    (preferences : Option Preferences) (prompt : Option String)
    (prompt_requirements : Option Requirements) : Option ℚ :=
  let weights := selectWeights prompt_requirements
  match keywordScoreOpt candidate prompt_requirements weights,
        distanceScoreOpt dist user candidate preferences weights.distance with
  | some kb, some db =>
    some (min 100 (kb +
      interestsComponent user candidate weights.interests +
      needsComponent user candidate weights.needs +
      bioComponent user candidate weights.bio +
      db +
      ageComponent user candidate weights.age +
      legacyComponent prompt prompt_requirements candidate (weights.prompt.getD (15/100))))
  | _, _ => none

/-! ### The filter & ranker (candidate loop of `find_matches`) -/

structure MatchRequest where
  user_id : String := ""
  prompt : Option String := none
  preferences : Option Preferences := none
  latitude : Option ℚ := none
  longitude : Option ℚ := none
  limit : Int := 10
  single_best_match : Bool := false
  deriving DecidableEq

structure ScoredCandidate where
  profile : Profile
  match_score : ℚ
  criteria_coverage : ℚ
  deriving DecidableEq

/-- The pre-scoring hard distance filter.  `some true` = keep, `some false` =
skip this candidate, `none` = the comparison `distance > max_dist` raises
(max_distance is `None`). -/
def distanceFilterKeep (dist : ℚ → ℚ → ℚ → ℚ → ℚ) (req : MatchRequest)
    (candidate : Profile) : Option Bool :=
  if optNumTruthy req.latitude && optNumTruthy req.longitude &&
     optNumTruthy candidate.latitude && optNumTruthy candidate.longitude then
    match (match req.preferences with | some p => p.max_distance | none => some 50) with
    | none => none
    | some m =>
      some (decide (dist (req.latitude.getD 0) (req.longitude.getD 0)
        (candidate.latitude.getD 0) (candidate.longitude.getD 0) ≤ (m : ℚ)))
  else some true

/-- One iteration of the scoring loop: outer `none` = the request raises,
inner `none` = the candidate is filtered out or not included. -/
def processCandidate (dist : ℚ → ℚ → ℚ → ℚ → ℚ) (req : MatchRequest) (user : Profile)
    (pr : Option Requirements) (candidate : Profile) : Option (Option ScoredCandidate) :=
  match distanceFilterKeep dist req candidate with
  | none => none
  | some false => some none
  | some true =>
    match calculate_match_score dist user candidate req.preferences req.prompt pr with
    | none => none
    | some score =>
      let coverage := if optTruthyR pr then compute_criteria_coverage pr candidate else 0
      let keep :=
        if optTruthyR pr then
          (if (6/10 : ℚ) ≤ coverage then true else decide ((10 : ℚ) ≤ score))
        else decide ((5 : ℚ) ≤ score)
      some (if keep then some ⟨candidate, score, coverage⟩ else none)

/-- The `scored_candidates` list, in pool order. -/
def includedCandidates (dist : ℚ → ℚ → ℚ → ℚ → ℚ) (req : MatchRequest) (user : Profile)
    (pr : Option Requirements) : List Profile → Option (List ScoredCandidate)
  | [] => some []
  | c :: cs =>
    match processCandidate dist req user pr c with
    | none => none
    | some r =>
      match includedCandidates dist req user pr cs with
      | none => none
      | some rest =>
        some (match r with
              | some sc => sc :: rest
              | none => rest)

/-- The descending `(coverage, score)` lexicographic order used by the sort. -/
def rankKeyGE (a b : ScoredCandidate) : Prop :=
  b.criteria_coverage < a.criteria_coverage ∨
  (a.criteria_coverage = b.criteria_coverage ∧ b.match_score ≤ a.match_score)

instance : DecidableRel rankKeyGE := fun a b => by
  unfold rankKeyGE; infer_instance

instance : IsTotal ScoredCandidate rankKeyGE where
  total a b := by
    unfold rankKeyGE
    rcases lt_trichotomy a.criteria_coverage b.criteria_coverage with h | h | h
    · exact Or.inr (Or.inl h)
    · rcases le_total b.match_score a.match_score with hs | hs
      · exact Or.inl (Or.inr ⟨h, hs⟩)
      · exact Or.inr (Or.inr ⟨h.symm, hs⟩)
    · exact Or.inl (Or.inl h)

instance : IsTrans ScoredCandidate rankKeyGE where
  trans a b c hab hbc := by
    unfold rankKeyGE at *
    rcases hab with h1 | ⟨h1, h1s⟩ <;> rcases hbc with h2 | ⟨h2, h2s⟩
    · exact Or.inl (h2.trans h1)
    · exact Or.inl (h2 ▸ h1)
    · exact Or.inl (h1 ▸ h2)
    · exact Or.inr ⟨h1.trans h2, h2s.trans h1s⟩

/-- Python slicing `l[:k]` for an integer `k` (negative `k` drops from the
end); in either case the result is a prefix of `l`. -/
def pyTake {α : Type} (k : Int) (l : List α) : List α :=
  if 0 ≤ k then l.take k.toNat else l.take (l.length - (-k).toNat)

/-- Sort, coverage-restriction and truncation steps of `find_matches`. -/
def strongOf (l : List ScoredCandidate) : List ScoredCandidate :=
  l.filter (fun c => decide ((6/10 : ℚ) ≤ c.criteria_coverage))

def rankCandidates (pr : Option Requirements) (limit : Int) (single : Bool)
    (scored : List ScoredCandidate) : List ScoredCandidate :=
  let sorted := List.insertionSort rankKeyGE scored
  let restricted :=
    if optTruthyR pr then
      (if (strongOf sorted).isEmpty then sorted else strongOf sorted)
    else sorted
  if single && !restricted.isEmpty then restricted.take 1 else pyTake limit restricted

/-- Requirements extraction at the top of `find_matches` (`None` when no
prompt was supplied, the parsed dict otherwise). -/
def promptRequirementsOf (req : MatchRequest) : Option Requirements :=
  match req.prompt with
  | some p => if p = "" then none else some (parse_prompt_requirements p)
  | none => none

/-- The candidate-processing part of `find_matches`: score, filter, rank and
truncate the pool; `none` when the Python handler raises (HTTP 500). -/
def find_matches (dist : ℚ → ℚ → ℚ → ℚ → ℚ) (req : MatchRequest) (user : Profile)
    (pool : List Profile) : Option (List ScoredCandidate) :=
  match includedCandidates dist req user (promptRequirementsOf req) pool with
  | none => none
  | some sc => some (rankCandidates (promptRequirementsOf req) req.limit req.single_best_match sc)

/-! ### Elementary bounds on the scoring toolkit -/

lemma tierScore_nonneg (kw it nt bt : String) : 0 ≤ tierScore kw it nt bt := by
  unfold tierScore
  split_ifs <;> norm_num

lemma calculate_keyword_match_nonneg (ks : List String) (p : Profile) :
    0 ≤ calculate_keyword_match ks p := by
  simp only [calculate_keyword_match]
  split_ifs with h1 h2
  · norm_num
  · norm_num
  · refine le_min (by norm_num) (div_nonneg ?_ (by positivity))
    apply List.sum_nonneg
    intro x hx
    obtain ⟨kw, -, rfl⟩ := List.mem_map.mp hx
    exact tierScore_nonneg ..

lemma calculate_keyword_match_le_one (ks : List String) (p : Profile) :
    calculate_keyword_match ks p ≤ 1 := by
  simp only [calculate_keyword_match]
  split_ifs <;> first
    | norm_num
    | exact min_le_left _ _

lemma calculate_text_similarity_nonneg (a b : Option String) :
    0 ≤ calculate_text_similarity a b := by
  unfold calculate_text_similarity
  rcases a with - | t1 <;> rcases b with - | t2 <;> try norm_num
  split_ifs <;> positivity

lemma calculate_list_similarity_nonneg (a b : Option (List String)) :
    0 ≤ calculate_list_similarity a b := by
  unfold calculate_list_similarity
  rcases a with - | l1 <;> rcases b with - | l2 <;> try norm_num
  split_ifs <;> positivity

lemma interestsComponent_nonneg (u c : Profile) {w : ℚ} (hw : 0 ≤ w) :
    0 ≤ interestsComponent u c w := by
  unfold interestsComponent
  split
  · have := calculate_list_similarity_nonneg u.interests c.interests
    positivity
  · norm_num

lemma needsComponent_nonneg (u c : Profile) {w : ℚ} (hw : 0 ≤ w) :
    0 ≤ needsComponent u c w := by
  unfold needsComponent
  split
  · have := calculate_list_similarity_nonneg u.needs c.needs
    positivity
  · norm_num

lemma bioComponent_nonneg (u c : Profile) {w : ℚ} (hw : 0 ≤ w) :
    0 ≤ bioComponent u c w := by
  unfold bioComponent
  split
  · have := calculate_text_similarity_nonneg u.bio c.bio
    positivity
  · norm_num

lemma ageComponent_nonneg (u c : Profile) {w : ℚ} (hw : 0 ≤ w) :
    0 ≤ ageComponent u c w := by
  unfold ageComponent
  split
  · have h0 : (0 : ℚ) ≤ max 0 (1 - (((u.age.getD 0) - (c.age.getD 0)).natAbs : ℚ) / 20) :=
      le_max_left _ _
    positivity
  · norm_num

lemma legacyComponent_nonneg (prompt : Option String) (pr : Option Requirements)
    (c : Profile) {w : ℚ} (hw : 0 ≤ w) : 0 ≤ legacyComponent prompt pr c w := by
  unfold legacyComponent
  split
  · have := calculate_text_similarity_nonneg prompt c.bio
    positivity
  · norm_num

lemma keywordScoreOpt_nonneg {c : Profile} {pr : Option Requirements} {w : Weights} {kb : ℚ}
    (hw : ∀ x, w.prompt_keywords = some x → 0 ≤ x)
    (h : keywordScoreOpt c pr w = some kb) : 0 ≤ kb := by
  rcases pr with - | r
  · simp only [keywordScoreOpt, Option.some.injEq] at h
    subst h; norm_num
  · simp only [keywordScoreOpt] at h
    by_cases ht : r.truthy
    · rw [if_pos ht] at h
      rcases hww : w.prompt_keywords with - | wpk <;> rw [hww] at h
      · simp at h
      · simp only [Option.some.injEq] at h
        subst h
        have hwpk := hw wpk hww
        refine add_nonneg (add_nonneg (add_nonneg ?_ ?_) ?_) ?_
        · have hkm : (0 : ℚ) ≤ (if (!(expand_prompt_keywords r).isEmpty) = true then
              calculate_keyword_match (expand_prompt_keywords r) c else 0) := by
            split_ifs
            · exact calculate_keyword_match_nonneg ..
            · norm_num
          positivity
        · split_ifs <;> norm_num
        · split_ifs <;> norm_num
        · split_ifs <;> norm_num
    · rw [if_neg ht] at h
      simp only [Option.some.injEq] at h
      subst h; norm_num

lemma distanceScoreOpt_nonneg {dist : ℚ → ℚ → ℚ → ℚ → ℚ} {u c : Profile}
    {prefs : Option Preferences} {w : ℚ} {db : ℚ} (hw : 0 ≤ w)
    (h : distanceScoreOpt dist u c prefs w = some db) : 0 ≤ db := by
  simp only [distanceScoreOpt] at h
  split_ifs at h with h1
  · rcases hm : (match prefs with | some p => p.max_distance | none => some 50) with - | m
    · rw [hm] at h
      exact absurd h (by simp)
    · rw [hm] at h
      simp only at h
      split_ifs at h with h2
      all_goals first
        | exact Option.noConfusion h
        | · simp only [Option.some.injEq] at h
            subst h
            have h0 : (0 : ℚ) ≤ max 0 (1 - dist (u.latitude.getD 0) (u.longitude.getD 0)
                (c.latitude.getD 0) (c.longitude.getD 0) / (m : ℚ)) := le_max_left _ _
            positivity
  · simp only [Option.some.injEq] at h
    subst h; norm_num

lemma selectWeights_cases (pr : Option Requirements) :
    selectWeights pr = weightsNearby ∨ selectWeights pr = weightsKeyword ∨
    selectWeights pr = weightsStandard := by
  unfold selectWeights
  split_ifs <;> simp

lemma weights_fields_nonneg (w : Weights)
    (hw : w = weightsNearby ∨ w = weightsKeyword ∨ w = weightsStandard) :
    (∀ x, w.prompt_keywords = some x → 0 ≤ x) ∧ 0 ≤ w.interests ∧ 0 ≤ w.needs ∧
    0 ≤ w.bio ∧ 0 ≤ w.distance ∧ 0 ≤ w.age ∧ 0 ≤ w.prompt.getD (15/100) := by
  rcases hw with rfl | rfl | rfl <;>
    refine ⟨fun x hx => ?_, by norm_num [weightsNearby, weightsKeyword, weightsStandard],
      by norm_num [weightsNearby, weightsKeyword, weightsStandard],
      by norm_num [weightsNearby, weightsKeyword, weightsStandard],
      by norm_num [weightsNearby, weightsKeyword, weightsStandard],
      by norm_num [weightsNearby, weightsKeyword, weightsStandard],
      by norm_num [weightsNearby, weightsKeyword, weightsStandard]⟩ <;>
    · simp only [weightsNearby, weightsKeyword, weightsStandard, Option.some.injEq] at hx
      first
        | (subst hx; norm_num)
        | exact absurd hx (by simp)

/-! ### Bounds on the coverage counters -/

lemma genderCount_le (r : Requirements) (c : Profile) :
    (genderCount r c).2 ≤ (genderCount r c).1 := by
  rcases hg : r.gender with - | gv <;> simp only [genderCount, hg]
  · decide
  · split_ifs <;> decide

lemma ageCount_le (r : Requirements) (c : Profile) :
    (ageCount r c).2 ≤ (ageCount r c).1 := by
  rcases hr : r.age_range with - | ⟨lo, hi⟩ <;>
    simp only [ageCount, hr] <;> try simp
  rcases ha : c.age with - | a <;> simp only [ha] <;> try simp
  split_ifs <;> simp

lemma keywordCount_le (r : Requirements) (c : Profile) :
    (keywordCount r c).2 ≤ (keywordCount r c).1 := by
  simp only [keywordCount]
  split_ifs <;> simp

lemma coverage_nonneg (pr : Option Requirements) (c : Profile) :
    0 ≤ compute_criteria_coverage pr c := by
  rcases pr with - | r <;> simp only [compute_criteria_coverage]
  · norm_num
  · split_ifs <;> positivity

lemma coverage_le_one (pr : Option Requirements) (c : Profile) :
    compute_criteria_coverage pr c ≤ 1 := by
  rcases pr with - | r <;> simp only [compute_criteria_coverage]
  · norm_num
  · split_ifs with h1 h2
    · norm_num
    · norm_num
    · rw [div_le_one (by exact_mod_cast Nat.pos_of_ne_zero h2)]
      have := Nat.add_le_add (Nat.add_le_add (genderCount_le r c) (ageCount_le r c))
        (keywordCount_le r c)
      exact_mod_cast this

/-- C7: for every input on which `calculate_match_score` returns (does not
raise), the score lies in `[0, 100]` — every contribution is non-negative and
the result is clamped by `min 100` — and `compute_criteria_coverage` always
lies in `[0, 1]` (`satisfied / total` with `satisfied ≤ total`, and `0` when no
constraint was extracted). -/
theorem C7_score_and_coverage_bounds :
    (∀ (dist : ℚ → ℚ → ℚ → ℚ → ℚ) (user candidate : Profile)
       (preferences : Option Preferences) (prompt : Option String)
       (pr : Option Requirements) (s : ℚ),
       calculate_match_score dist user candidate preferences prompt pr = some s →
       0 ≤ s ∧ s ≤ 100) ∧
    (∀ (pr : Option Requirements) (candidate : Profile),
       0 ≤ compute_criteria_coverage pr candidate ∧
       compute_criteria_coverage pr candidate ≤ 1) := by
  constructor
  · intro dist user candidate preferences prompt pr s h
    simp only [calculate_match_score] at h
    rcases hk : keywordScoreOpt candidate pr (selectWeights pr) with - | kb <;> rw [hk] at h
    · exact absurd h (by simp)
    · rcases hd : distanceScoreOpt dist user candidate preferences
          (selectWeights pr).distance with - | db <;> rw [hd] at h
      · exact absurd h (by simp)
      · simp only [Option.some.injEq] at h
        subst h
        obtain ⟨hwpk, hwi, hwn, hwb, hwd, hwa, hwp⟩ :=
          weights_fields_nonneg (selectWeights pr) (selectWeights_cases pr)
        have hkb := keywordScoreOpt_nonneg hwpk hk
        have hdb := distanceScoreOpt_nonneg hwd hd
        have hsum : (0 : ℚ) ≤ kb +
            interestsComponent user candidate (selectWeights pr).interests +
            needsComponent user candidate (selectWeights pr).needs +
            bioComponent user candidate (selectWeights pr).bio + db +
            ageComponent user candidate (selectWeights pr).age +
            legacyComponent prompt pr candidate ((selectWeights pr).prompt.getD (15/100)) := by
          refine add_nonneg (add_nonneg (add_nonneg (add_nonneg (add_nonneg
            (add_nonneg hkb ?_) ?_) ?_) hdb) ?_) ?_
          · exact interestsComponent_nonneg user candidate hwi
          · exact needsComponent_nonneg user candidate hwn
          · exact bioComponent_nonneg user candidate hwb
          · exact ageComponent_nonneg user candidate hwa
          · exact legacyComponent_nonneg prompt pr candidate hwp
        exact ⟨le_min (by norm_num) hsum, min_le_left _ _⟩
  · intro pr candidate
    exact ⟨coverage_nonneg pr candidate, coverage_le_one pr candidate⟩

/-- Witness for C7 at a concrete input: the all-defaults profiles produce
`some 0`, which the theorem bounds, and the empty requirement set has
coverage `0`. -/
theorem C7_witness :
    ((0 : ℚ) ≤ 0 ∧ (0 : ℚ) ≤ 100) ∧
    (0 ≤ compute_criteria_coverage none {} ∧ compute_criteria_coverage none {} ≤ 1) :=
  ⟨C7_score_and_coverage_bounds.1 (fun _ _ _ _ => 0) {} {} none none none 0 (by decide),
   C7_score_and_coverage_bounds.2 none {}⟩

/-! ### Coverage monotonicity machinery -/

lemma div_le_add_one_div {x y : ℚ} (hx : 0 ≤ x) (hxy : x ≤ y) :
    x / y ≤ (x + 1) / (y + 1) := by
  rcases eq_or_lt_of_le (hx.trans hxy) with hy | hy
  · have hx0 : x = 0 := le_antisymm (hxy.trans hy.ge) hx
    rw [← hy, hx0]
    norm_num
  · rw [div_le_div_iff hy (by linarith)]
    nlinarith

lemma coverage_counts_mono {s t : ℕ} (hst : s ≤ t) :
    (if t = 0 then (0 : ℚ) else (s : ℚ) / (t : ℚ)) ≤
    (if t + 1 = 0 then (0 : ℚ) else ((s + 1 : ℕ) : ℚ) / ((t + 1 : ℕ) : ℚ)) := by
  rw [if_neg (Nat.succ_ne_zero t)]
  split_ifs with h0
  · positivity
  · push_cast
    exact div_le_add_one_div (by positivity) (by exact_mod_cast hst)

lemma coverage_some_eval (r : Requirements) (c : Profile) (ht : r.truthy = true) :
    compute_criteria_coverage (some r) c =
      (if (genderCount r c).1 + (ageCount r c).1 + (keywordCount r c).1 = 0 then 0
       else (((genderCount r c).2 + (ageCount r c).2 + (keywordCount r c).2 : ℕ) : ℚ) /
            (((genderCount r c).1 + (ageCount r c).1 + (keywordCount r c).1 : ℕ) : ℚ)) := by
  simp only [compute_criteria_coverage, ht, Bool.not_true, Bool.false_eq_true, if_false]

lemma coverage_step (r r' : Requirements) (c : Profile)
    (ht : r.truthy = true) (ht' : r'.truthy = true)
    (hT : (genderCount r' c).1 + (ageCount r' c).1 + (keywordCount r' c).1 =
          (genderCount r c).1 + (ageCount r c).1 + (keywordCount r c).1 + 1)
    (hS : (genderCount r' c).2 + (ageCount r' c).2 + (keywordCount r' c).2 =
          (genderCount r c).2 + (ageCount r c).2 + (keywordCount r c).2 + 1) :
    compute_criteria_coverage (some r) c ≤ compute_criteria_coverage (some r') c := by
  rw [coverage_some_eval r c ht, coverage_some_eval r' c ht', hT, hS]
  exact coverage_counts_mono (Nat.add_le_add (Nat.add_le_add (genderCount_le r c)
    (ageCount_le r c)) (keywordCount_le r c))

lemma coverage_of_not_truthy (r : Requirements) (c : Profile) (ht : r.truthy = false) :
    compute_criteria_coverage (some r) c = 0 := by
  simp only [compute_criteria_coverage, ht, Bool.not_false, if_true]

/-- C8: coverage is monotone under adding one satisfied hard constraint to the
requirement set: for each of the three constraint kinds (gender, age range,
keyword threshold), if the constraint is absent from `r` and the candidate
satisfies the added constraint, then coverage does not decrease; read
right-to-left this also says removing a satisfied constraint cannot increase
coverage. -/
theorem C8_coverage_monotone (r : Requirements) (c : Profile) (g : String)
    (lo hi a : Int) (ks : List String) :
    (r.gender = none → g ≠ "" → pyLower (pyTrim (c.gender.getD "")) = g →
       compute_criteria_coverage (some r) c ≤
         compute_criteria_coverage (some { r with gender := some g }) c) ∧
    (r.age_range = none → c.age = some a → lo ≤ a → a ≤ hi →
       compute_criteria_coverage (some r) c ≤
         compute_criteria_coverage (some { r with age_range := some (lo, hi) }) c) ∧
    (expand_prompt_keywords r = [] →
       expand_prompt_keywords { r with keywords := some ks } ≠ [] →
       (6/10 : ℚ) ≤ calculate_keyword_match
         (expand_prompt_keywords { r with keywords := some ks }) c →
       compute_criteria_coverage (some r) c ≤
         compute_criteria_coverage (some { r with keywords := some ks }) c) := by
  refine ⟨?_, ?_, ?_⟩
  · -- adding a satisfied gender constraint
    intro hg hne hmatch
    by_cases ht : r.truthy
    · have ht' : ({ r with gender := some g } : Requirements).truthy = true := by
        simp [Requirements.truthy]
      have hexp : expand_prompt_keywords { r with gender := some g } =
          expand_prompt_keywords r := by
        simp only [expand_prompt_keywords, ht, ht', Bool.not_true, Bool.false_eq_true, if_false]
      have hgc : genderCount r c = (0, 0) := by simp [genderCount, hg]
      have hgc' : genderCount { r with gender := some g } c = (1, 1) := by
        simp [genderCount, hmatch, hne]
      have hac : ageCount { r with gender := some g } c = ageCount r c := rfl
      have hkc : keywordCount { r with gender := some g } c = keywordCount r c := by
        simp only [keywordCount, hexp]
      refine coverage_step r _ c ht ht' ?_ ?_ <;>
        rw [hgc, hgc', hac, hkc] <;> dsimp only <;> omega
    · rw [coverage_of_not_truthy r c (by simpa using ht)]
      exact coverage_nonneg _ _
  · -- adding a satisfied age-range constraint
    intro hr hca hlo hhi
    by_cases ht : r.truthy
    · have ht' : ({ r with age_range := some (lo, hi) } : Requirements).truthy = true := by
        simp [Requirements.truthy]
      have hexp : expand_prompt_keywords { r with age_range := some (lo, hi) } =
          expand_prompt_keywords r := by
        simp only [expand_prompt_keywords, ht, ht', Bool.not_true, Bool.false_eq_true, if_false]
      have hac : ageCount r c = (0, 0) := by simp [ageCount, hr]
      have hac' : ageCount { r with age_range := some (lo, hi) } c = (1, 1) := by
        simp [ageCount, hca, hlo, hhi]
      have hgc : genderCount { r with age_range := some (lo, hi) } c = genderCount r c := rfl
      have hkc : keywordCount { r with age_range := some (lo, hi) } c =
          keywordCount r c := by
        simp only [keywordCount, hexp]
      refine coverage_step r _ c ht ht' ?_ ?_ <;>
        rw [hac, hac', hgc, hkc] <;> dsimp only <;> omega
    · rw [coverage_of_not_truthy r c (by simpa using ht)]
      exact coverage_nonneg _ _
  · -- adding a satisfied keyword constraint
    intro hE hE' hkm
    by_cases ht : r.truthy
    · have ht' : ({ r with keywords := some ks } : Requirements).truthy = true := by
        simp [Requirements.truthy]
      have hkc : keywordCount r c = (0, 0) := by
        simp [keywordCount, hE]
      have hkc' : keywordCount { r with keywords := some ks } c = (1, 1) := by
        have hemp : (expand_prompt_keywords { r with keywords := some ks }).isEmpty = false := by
          rcases hl : expand_prompt_keywords { r with keywords := some ks } with - | ⟨x, xs⟩
          · exact absurd hl hE'
          · rfl
        simp [keywordCount, hemp, hkm]
      have hgc : genderCount { r with keywords := some ks } c = genderCount r c := rfl
      have hac : ageCount { r with keywords := some ks } c = ageCount r c := rfl
      refine coverage_step r _ c ht ht' ?_ ?_ <;>
        rw [hkc, hkc', hgc, hac] <;> dsimp only <;> omega
    · rw [coverage_of_not_truthy r c (by simpa using ht)]
      exact coverage_nonneg _ _

/-- Witness for C8 at concrete inputs: starting from the empty requirement set,
each of the three constraints is added in satisfied form. -/
theorem C8_witness :
    (compute_criteria_coverage (some {}) { gender := some ("female") } ≤
       compute_criteria_coverage (some { gender := some ("female") })
         { gender := some ("female") }) ∧
    (compute_criteria_coverage (some {}) { age := some 25 } ≤
       compute_criteria_coverage (some { age_range := some (20, 30) })
         { age := some 25 }) ∧
    (compute_criteria_coverage (some {}) { interests := some [("coding")] } ≤
       compute_criteria_coverage (some { keywords := some [("coding")] })
         { interests := some [("coding")] }) :=
  ⟨(C8_coverage_monotone {} { gender := some ("female") } ("female") 0 0 0 []).1
     (by decide) (by decide) (by decide),
   (C8_coverage_monotone {} { age := some 25 } "" 20 30 25 []).2.1
     (by decide) (by decide) (by decide) (by decide),
   (C8_coverage_monotone {} { interests := some [("coding")] } "" 0 0 0 [("coding")]).2.2
     (by decide) (by decide) (by decide)⟩

/-! ### Pipeline lemmas for the filter & ranker -/

lemma processCandidate_cov_zero {dist : ℚ → ℚ → ℚ → ℚ → ℚ} {req : MatchRequest}
    {user : Profile} {pr : Option Requirements} {c : Profile} {x : ScoredCandidate}
    (hpr : optTruthyR pr = false)
    (h : processCandidate dist req user pr c = some (some x)) :
    x.criteria_coverage = 0 := by
  simp only [processCandidate, hpr, Bool.false_eq_true, if_false] at h
  rcases hf : distanceFilterKeep dist req c with - | b <;> rw [hf] at h
  · exact Option.noConfusion h
  · rcases b
    · simp at h
    · rcases hs : calculate_match_score dist user c req.preferences req.prompt pr
        with - | score <;> rw [hs] at h
      · exact Option.noConfusion h
      · simp only at h
        split_ifs at h
        · simp only [Option.some.injEq] at h
          rw [← h]
        · simp at h

lemma includedCandidates_cov_zero {dist : ℚ → ℚ → ℚ → ℚ → ℚ} {req : MatchRequest}
    {user : Profile} {pr : Option Requirements} (hpr : optTruthyR pr = false) :
    ∀ (pool : List Profile) (sc : List ScoredCandidate),
      includedCandidates dist req user pr pool = some sc →
      ∀ c ∈ sc, c.criteria_coverage = 0 := by
  intro pool
  induction pool with
  | nil =>
    intro sc h c hc
    simp only [includedCandidates, Option.some.injEq] at h
    subst h
    exact absurd hc (List.not_mem_nil c)
  | cons p ps ih =>
    intro sc h c hc
    simp only [includedCandidates] at h
    rcases hp : processCandidate dist req user pr p with - | r <;> rw [hp] at h
    · exact Option.noConfusion h
    · rcases hrest : includedCandidates dist req user pr ps with - | rest <;>
        rw [hrest] at h
      · exact Option.noConfusion h
      · simp only [Option.some.injEq] at h
        subst h
        rcases r with - | x
        · exact ih rest hrest c hc
        · rcases List.mem_cons.mp hc with rfl | hmem
          · exact processCandidate_cov_zero hpr hp
          · exact ih rest hrest c hmem

lemma mem_of_mem_pyTake {α : Type} {k : Int} {l : List α} {a : α}
    (h : a ∈ pyTake k l) : a ∈ l := by
  unfold pyTake at h
  split_ifs at h <;> exact List.take_subset _ _ h

lemma rankCandidates_subset_strong {pr : Option Requirements} {limit : Int}
    {single : Bool} {sc : List ScoredCandidate} {c : ScoredCandidate}
    (ht : optTruthyR pr = true)
    (hne : (strongOf (List.insertionSort rankKeyGE sc)).isEmpty = false) :
    ∀ m ∈ rankCandidates pr limit single sc,
      m ∈ strongOf (List.insertionSort rankKeyGE sc) := by
  intro m hm
  simp only [rankCandidates, ht, if_true, hne, Bool.false_eq_true, if_false] at hm
  split_ifs at hm
  · exact List.take_subset _ _ hm
  · exact mem_of_mem_pyTake hm

/-- C5: if a requirement set was extracted and at least one candidate in the
included (`scored_candidates`) list reaches coverage ≥ 0.60, the final result
contains only candidates with coverage ≥ 0.60 — the fallback-included weak
candidates are dropped. -/
theorem C5_coverage_restriction (dist : ℚ → ℚ → ℚ → ℚ → ℚ) (req : MatchRequest)
    (user : Profile) (pool : List Profile) (sc res : List ScoredCandidate)
    (hreq : (promptRequirementsOf req).isSome = true)
    (hsc : includedCandidates dist req user (promptRequirementsOf req) pool = some sc)
    (hres : find_matches dist req user pool = some res)
    (hstrong : ∃ c ∈ sc, (6/10 : ℚ) ≤ c.criteria_coverage) :
    ∀ m ∈ res, (6/10 : ℚ) ≤ m.criteria_coverage := by
  obtain ⟨c, hcmem, hccov⟩ := hstrong
  have hres' : res =
      rankCandidates (promptRequirementsOf req) req.limit req.single_best_match sc := by
    simp only [find_matches, hsc, Option.some.injEq] at hres
    exact hres.symm
  by_cases ht : optTruthyR (promptRequirementsOf req) = true
  · have hcs : c ∈ List.insertionSort rankKeyGE sc :=
      (List.mem_insertionSort rankKeyGE).mpr hcmem
    have hcf : c ∈ strongOf (List.insertionSort rankKeyGE sc) :=
      List.mem_filter.mpr ⟨hcs, decide_eq_true hccov⟩
    have hne : (strongOf (List.insertionSort rankKeyGE sc)).isEmpty = false := by
      rcases hl : strongOf (List.insertionSort rankKeyGE sc) with - | ⟨x, xs⟩
      · rw [hl] at hcf
        exact absurd hcf (List.not_mem_nil c)
      · rfl
    intro m hm
    rw [hres'] at hm
    have hmem := rankCandidates_subset_strong (c := c) ht hne m hm
    have := List.mem_filter.mp hmem
    exact of_decide_eq_true this.2
  · have h0 : c.criteria_coverage = 0 :=
      includedCandidates_cov_zero (Bool.eq_false_iff.mpr ht) pool sc hsc c hcmem
    rw [h0] at hccov
    norm_num at hccov

/-- Witness for C5 at a concrete input: the prompt "female" with a single
matching candidate whose coverage is 1. -/
theorem C5_witness :
    (6/10 : ℚ) ≤ (ScoredCandidate.mk
      { gender := some ("female"), interests := some [("female")] } 70 1).criteria_coverage :=
  C5_coverage_restriction (fun _ _ _ _ => 0) { prompt := some ("female") } {}
    [{ gender := some ("female"), interests := some [("female")] }]
    [⟨{ gender := some ("female"), interests := some [("female")] }, 70, 1⟩]
    [⟨{ gender := some ("female"), interests := some [("female")] }, 70, 1⟩]
    (by decide) (by decide) (by decide)
    ⟨⟨{ gender := some ("female"), interests := some [("female")] }, 70, 1⟩,
      by decide, by decide⟩
    ⟨{ gender := some ("female"), interests := some [("female")] }, 70, 1⟩ (by decide)

lemma rankCandidates_sorted (pr : Option Requirements) (limit : Int) (single : Bool)
    (sc : List ScoredCandidate) :
    List.Sorted rankKeyGE (rankCandidates pr limit single sc) := by
  have hs : List.Sorted rankKeyGE (List.insertionSort rankKeyGE sc) :=
    List.sorted_insertionSort rankKeyGE sc
  simp only [rankCandidates]
  set sorted := List.insertionSort rankKeyGE sc with hsdef
  set restricted := (if optTruthyR pr then
      (if (strongOf sorted).isEmpty then sorted else strongOf sorted)
    else sorted) with hrdef
  have hrestr : List.Sorted rankKeyGE restricted := by
    rw [hrdef]
    split_ifs
    · exact hs
    · exact List.Pairwise.sublist (List.filter_sublist _) hs
    · exact hs
  split_ifs
  · exact List.Pairwise.sublist (List.take_sublist _ _) hrestr
  · unfold pyTake
    split_ifs <;> exact List.Pairwise.sublist (List.take_sublist _ _) hrestr

/-- C6: the result list of `find_matches` is sorted by criteria coverage
descending with match score descending breaking ties: no consecutive pair is
lexicographically increasing in `(coverage, score)`. -/
theorem C6_sorted_output (dist : ℚ → ℚ → ℚ → ℚ → ℚ) (req : MatchRequest)
    (user : Profile) (pool : List Profile) (res : List ScoredCandidate)
    (hres : find_matches dist req user pool = some res) :
    res.Chain' (fun a b =>
      ¬ (a.criteria_coverage < b.criteria_coverage ∨
         (a.criteria_coverage = b.criteria_coverage ∧ a.match_score < b.match_score))) := by
  simp only [find_matches] at hres
  rcases hsc : includedCandidates dist req user (promptRequirementsOf req) pool
    with - | sc <;> rw [hsc] at hres
  · exact Option.noConfusion hres
  · simp only [Option.some.injEq] at hres
    subst hres
    have hsorted := rankCandidates_sorted (promptRequirementsOf req) req.limit
      req.single_best_match sc
    refine List.Chain'.imp ?_ (List.Pairwise.chain' hsorted)
    intro a b hab
    rcases hab with h1 | ⟨h1, h1s⟩ <;> rintro (h2 | ⟨h2, h2s⟩) <;> linarith

/-- Witness for C6 at a concrete input: a two-candidate pool whose result is
the two scored candidates in descending score order. -/
theorem C6_witness :
    List.Chain' (fun a b : ScoredCandidate =>
      ¬ (a.criteria_coverage < b.criteria_coverage ∨
         (a.criteria_coverage = b.criteria_coverage ∧ a.match_score < b.match_score)))
      [⟨{ interests := some [("music")] }, 30, 0⟩,
       ⟨{ interests := some [("music"), ("art")] }, 15, 0⟩] :=
  C6_sorted_output (fun _ _ _ _ => 0) {} { interests := some [("music")] }
    [{ interests := some [("music")] }, { interests := some [("music"), ("art")] }]
    [⟨{ interests := some [("music")] }, 30, 0⟩,
     ⟨{ interests := some [("music"), ("art")] }, 15, 0⟩]
    (by decide)

/-! ### Claims about the extractor and scorer at concrete inputs -/

/-- C1 (code bug): for the prompt "help me in" — every word a stop word, so no
`keywords` key — the parsed requirement dict is non-empty (gender "male" from
the substring "he", purpose "education" from "help me in"), the standard
weight profile is selected, and the unconditional read of
`weights['prompt_keywords']` raises a KeyError: the scorer does not return. -/
theorem C1_keyerror_on_keywordless_requirements :
    calculate_match_score (fun _ _ _ _ => 0) {} {} none (some ("help me in"))
      (some (parse_prompt_requirements ("help me in"))) = none ∧
    (parse_prompt_requirements ("help me in")).truthy = true ∧
    (parse_prompt_requirements ("help me in")).keywords = none := by decide

/-- C2 (code bug): the keyword "coding" is a synonym-table key, so the
`elif keyword in synonyms` branch captures it; with no synonym in the (empty)
interests text it scores 0 and the exact-in-needs tier (which the claim says
gives 0.8) is never reached. -/
theorem C2_needs_tier_swallowed :
    calculate_keyword_match [("coding")] { needs := some [("coding")] } = 0 ∧
    ((0 : ℚ) ≠ 8/10) := by decide

/-- The example prompt and candidate of spec §8 / claim C3. -/
def prompt3 : String := "find me a female user near age 23 who can help me in coding"

def cand3 : Profile :=
  { gender := some ("female"), age := some 23,
    interests := some [("coding"), ("hiking")] }

/-- C3 counterexample: for the example prompt, "help" is a stop word and is
not among the extracted keywords, and the example candidate's criteria
coverage is not 1 (the expanded keyword list has 12 entries of which only
"coding" and "programming" match, so the keyword criterion fails). -/
theorem C3_counterexample :
    ¬ (("help") ∈ ((parse_prompt_requirements prompt3).keywords.getD []) ∧
       compute_criteria_coverage (some (parse_prompt_requirements prompt3)) cand3 = 1) := by
  decide

/-- C3 amended: the prompt yields gender "female", age range [20, 26] and
keywords ["female", "coding"] — containing "coding" but not "help", which is a
stop word; the example candidate scores the full exact-interest tier 1.0 for
the keyword "coding", but its criteria coverage is 2/3 (gender and age are
satisfied, the 0.60 keyword-match threshold over the expanded keyword list is
not). -/
theorem C3_amended_example :
    (parse_prompt_requirements prompt3).gender = some ("female") ∧
    (parse_prompt_requirements prompt3).age_range = some (20, 26) ∧
    ("coding") ∈ ((parse_prompt_requirements prompt3).keywords.getD []) ∧
    ("help") ∉ ((parse_prompt_requirements prompt3).keywords.getD []) ∧
    tierScore ("coding") (profileInterestsText cand3) (profileNeedsText cand3)
      (profileBioText cand3) = 1 ∧
    compute_criteria_coverage (some (parse_prompt_requirements prompt3)) cand3 = 2/3 := by
  decide

/-- C4 counterexample: in "age 23 between 30 and 40" the single-value pattern
`age N` matches (clamped range [20, 26]), yet the resulting age range is the
"between" bounds [30, 40]: the between pattern is evaluated unconditionally
and overwrites the single-value result. -/
theorem C4_counterexample :
    agePatternsResult (pyLower ("age 23 between 30 and 40")).data = some (20, 26) ∧
    (parse_prompt_requirements ("age 23 between 30 and 40")).age_range = some (30, 40) ∧
    ((30, 40) : Int × Int) ≠ (20, 26) := by decide

lemma parse_age_range_eq (prompt : String) (hp : ¬ prompt = "") :
    (parse_prompt_requirements prompt).age_range = ageRangeOf (pyLower prompt).data := by
  unfold parse_prompt_requirements
  rw [if_neg hp]

/-- C4 amended: the "between N and M" pattern is evaluated unconditionally
and, when it matches, its direct bounds override any single-value pattern's
clamped tolerance range; the single-value range is the final age range only
when no "between" phrase matches (only the above/under bound patterns are
guarded on no earlier match). -/
theorem C4_amended_between_overrides (prompt : String) (a b : Nat) (r : Int × Int)
    (hp : ¬ prompt = "") :
    (scanBetween (pyLower prompt).data = some (a, b) →
       (parse_prompt_requirements prompt).age_range = some ((a : Int), (b : Int))) ∧
    (scanBetween (pyLower prompt).data = none →
       agePatternsResult (pyLower prompt).data = some r →
       (parse_prompt_requirements prompt).age_range = some r) := by
  constructor
  · intro hb
    rw [parse_age_range_eq prompt hp]
    simp only [ageRangeOf, hb]
  · intro hb hs
    rw [parse_age_range_eq prompt hp]
    simp only [ageRangeOf, hb, hs]

/-- Witness for C4 at concrete prompts: the between bounds win in
"age 23 between 30 and 40", and the single-value range stands in "age 23". -/
theorem C4_witness :
    (parse_prompt_requirements ("age 23 between 30 and 40")).age_range = some (30, 40) ∧
    (parse_prompt_requirements ("age 23")).age_range = some (20, 26) :=
  ⟨(C4_amended_between_overrides ("age 23 between 30 and 40") 30 40 (0, 0)
      (by decide)).1 (by decide),
   (C4_amended_between_overrides ("age 23") 0 0 (20, 26) (by decide)).2
     (by decide) (by decide)⟩

/-! ### Zero coordinates behave as absent coordinates -/

lemma distanceScoreOpt_skip {dist : ℚ → ℚ → ℚ → ℚ → ℚ} {u c : Profile}
    {prefs : Option Preferences} {w : ℚ}
    (h : optNumTruthy u.latitude = false ∨ optNumTruthy u.longitude = false ∨
         optNumTruthy c.latitude = false ∨ optNumTruthy c.longitude = false) :
    distanceScoreOpt dist u c prefs w = some 0 := by
  have hc : (optNumTruthy u.latitude && optNumTruthy u.longitude &&
      optNumTruthy c.latitude && optNumTruthy c.longitude) = false := by
    rcases h with h | h | h | h <;> simp [h]
  simp only [distanceScoreOpt, hc, Bool.false_eq_true, if_false]

lemma distanceFilterKeep_skip {dist : ℚ → ℚ → ℚ → ℚ → ℚ} {req : MatchRequest}
    {c : Profile}
    (h : optNumTruthy req.latitude = false ∨ optNumTruthy req.longitude = false ∨
         optNumTruthy c.latitude = false ∨ optNumTruthy c.longitude = false) :
    distanceFilterKeep dist req c = some true := by
  have hc : (optNumTruthy req.latitude && optNumTruthy req.longitude &&
      optNumTruthy c.latitude && optNumTruthy c.longitude) = false := by
    rcases h with h | h | h | h <;> simp [h]
  simp only [distanceFilterKeep, hc, Bool.false_eq_true, if_false]

/-- C9: a latitude or longitude equal to 0 is falsy in Python, so it is
treated exactly like an absent coordinate: the match score is the same as with
no coordinate at all (the distance contribution is skipped), and the
pre-scoring hard distance filter always keeps the candidate. -/
theorem C9_zero_coordinate_is_absent :
    (∀ (dist : ℚ → ℚ → ℚ → ℚ → ℚ) (u c : Profile) (prefs : Option Preferences)
       (prompt : Option String) (pr : Option Requirements),
       (calculate_match_score dist { u with latitude := some 0 } c prefs prompt pr =
          calculate_match_score dist { u with latitude := none } c prefs prompt pr) ∧
       (calculate_match_score dist { u with longitude := some 0 } c prefs prompt pr =
          calculate_match_score dist { u with longitude := none } c prefs prompt pr) ∧
       (calculate_match_score dist u { c with latitude := some 0 } prefs prompt pr =
          calculate_match_score dist u { c with latitude := none } prefs prompt pr) ∧
       (calculate_match_score dist u { c with longitude := some 0 } prefs prompt pr =
          calculate_match_score dist u { c with longitude := none } prefs prompt pr)) ∧
    (∀ (dist : ℚ → ℚ → ℚ → ℚ → ℚ) (req : MatchRequest) (c : Profile),
       distanceFilterKeep dist { req with latitude := some 0 } c = some true ∧
       distanceFilterKeep dist { req with longitude := some 0 } c = some true ∧
       distanceFilterKeep dist req { c with latitude := some 0 } = some true ∧
       distanceFilterKeep dist req { c with longitude := some 0 } = some true) := by
  constructor
  · intro dist u c prefs prompt pr
    refine ⟨?_, ?_, ?_, ?_⟩
    · have h0 : optNumTruthy ({ u with latitude := some 0 } : Profile).latitude = false :=
        (by decide : optNumTruthy (some (0 : ℚ)) = false)
      have h1 : optNumTruthy ({ u with latitude := none } : Profile).latitude = false :=
        (by decide : optNumTruthy (none : Option ℚ) = false)
      simp only [calculate_match_score]
      rw [distanceScoreOpt_skip (Or.inl h0), distanceScoreOpt_skip (Or.inl h1)]
      rfl
    · have h0 : optNumTruthy ({ u with longitude := some 0 } : Profile).longitude = false :=
        (by decide : optNumTruthy (some (0 : ℚ)) = false)
      have h1 : optNumTruthy ({ u with longitude := none } : Profile).longitude = false :=
        (by decide : optNumTruthy (none : Option ℚ) = false)
      simp only [calculate_match_score]
      rw [distanceScoreOpt_skip (Or.inr (Or.inl h0)),
        distanceScoreOpt_skip (Or.inr (Or.inl h1))]
      rfl
    · have h0 : optNumTruthy ({ c with latitude := some 0 } : Profile).latitude = false :=
        (by decide : optNumTruthy (some (0 : ℚ)) = false)
      have h1 : optNumTruthy ({ c with latitude := none } : Profile).latitude = false :=
        (by decide : optNumTruthy (none : Option ℚ) = false)
      simp only [calculate_match_score]
      rw [distanceScoreOpt_skip (Or.inr (Or.inr (Or.inl h0))),
        distanceScoreOpt_skip (Or.inr (Or.inr (Or.inl h1)))]
      rfl
    · have h0 : optNumTruthy ({ c with longitude := some 0 } : Profile).longitude = false :=
        (by decide : optNumTruthy (some (0 : ℚ)) = false)
      have h1 : optNumTruthy ({ c with longitude := none } : Profile).longitude = false :=
        (by decide : optNumTruthy (none : Option ℚ) = false)
      simp only [calculate_match_score]
      rw [distanceScoreOpt_skip (Or.inr (Or.inr (Or.inr h0))),
        distanceScoreOpt_skip (Or.inr (Or.inr (Or.inr h1)))]
      rfl
  · intro dist req c
    refine ⟨?_, ?_, ?_, ?_⟩
    · exact distanceFilterKeep_skip (Or.inl
        (by decide : optNumTruthy (some (0 : ℚ)) = false))
    · exact distanceFilterKeep_skip (Or.inr (Or.inl
        (by decide : optNumTruthy (some (0 : ℚ)) = false)))
    · exact distanceFilterKeep_skip (Or.inr (Or.inr (Or.inl
        (by decide : optNumTruthy (some (0 : ℚ)) = false))))
    · exact distanceFilterKeep_skip (Or.inr (Or.inr (Or.inr
        (by decide : optNumTruthy (some (0 : ℚ)) = false))))

/-! ### Substring-based gender detection -/

lemma parse_gender_eq (prompt : String) (hp : ¬ prompt = "") :
    (parse_prompt_requirements prompt).gender = genderOf (pyLower prompt) := by
  unfold parse_prompt_requirements
  rw [if_neg hp]

/-- C10: gender detection tests substring containment of each term in the
lower-cased prompt (not whole-word matching), with the female list checked
first: any prompt containing "he" as a substring but no female-indicating
substring gets gender "male", and any prompt containing "her" (e.g. inside
"there") gets gender "female". -/
theorem C10_gender_substring_detection (p q : String) :
    (pyIn ("he") (pyLower p) = true →
       (∀ t ∈ female_terms, pyIn t (pyLower p) = false) →
       (parse_prompt_requirements p).gender = some ("male")) ∧
    (pyIn ("her") (pyLower q) = true →
       (parse_prompt_requirements q).gender = some ("female")) := by
  constructor
  · intro hm hf
    have hp : ¬ p = "" := by
      rintro rfl
      exact absurd hm (by decide)
    rw [parse_gender_eq p hp]
    unfold genderOf
    have hfany : (female_terms.any fun t => pyIn t (pyLower p)) = false := by
      rcases hany : female_terms.any fun t => pyIn t (pyLower p)
      · rfl
      · obtain ⟨t, ht, htt⟩ := List.any_eq_true.mp hany
        rw [hf t ht] at htt
        exact absurd htt (by simp)
    rw [if_neg (by simp [hfany]),
      if_pos (List.any_eq_true.mpr ⟨("he"), by decide, hm⟩)]
  · intro hq
    have hp : ¬ q = "" := by
      rintro rfl
      exact absurd hq (by decide)
    rw [parse_gender_eq q hp]
    unfold genderOf
    rw [if_pos (List.any_eq_true.mpr ⟨("her"), by decide, hq⟩)]

/-- Witness for C10: "the" contains "he" and no female term, so it parses as
gender "male"; "there" contains "her", so it parses as gender "female". -/
theorem C10_witness :
    (parse_prompt_requirements ("the")).gender = some ("male") ∧
    (parse_prompt_requirements ("there")).gender = some ("female") :=
  ⟨(C10_gender_substring_detection ("the") ("there")).1 (by decide) (by decide),
   (C10_gender_substring_detection ("the") ("there")).2 (by decide)⟩
